import Mathlib

/-!
Verification of the admission-controlled agentic retrieval loop of the
llm-agent repository: the sliding-window rate limiter
(`src/server/rate-limit.ts`), the step-bounded agent orchestration
(`src/deep-search.ts`), the `scrapePages` tool's fan-in shape, and the
chat POST endpoint (`src/app/api/chat/route.ts`).

Conventions of the embedding:
* JavaScript numbers that only ever hold non-negative integers
  (timestamps, counters, window sizes) are `Nat`; `remaining`, which the
  fail-open branch computes as `maxRequests - 1` without clamping, is `Int`.
* `Date.now()` is passed in explicitly as a `now : Nat` argument.
* The Redis counter store is a pure map `String → Option Nat`
  (`none` = missing key); a read that throws is an `Except.error`.
* A JavaScript field access that yields `undefined` on a variant lacking
  the field (e.g. `result.data` on a failed crawl outcome) is `none`.
-/

namespace LlmAgent

/-! ## Rate limiter: `src/server/rate-limit.ts` -/

/-- `RateLimitConfig` from rate-limit.ts.  The source field `keyPrefix` is
named `keyPref` here; defaults are `DEFAULT_KEY_PREFIX = "rate_limit"` and
`DEFAULT_MAX_RETRIES = 3`. -/
structure RateLimitConfig where
  maxRequests : Nat
  windowMs : Nat
  keyPref : String := "rate_limit"
  maxRetries : Nat := 3
deriving Repr, DecidableEq

/-- `RateLimitResult` minus the `retry` closure, which is modelled
separately by `retryRun`. -/
structure RateLimitResult where
  allowed : Bool
  remaining : Int
  resetTime : Nat
  totalHits : Nat
deriving Repr, DecidableEq

/-- `getWindowKey` from rate-limit.ts:
`windowStart = Math.floor(now / windowMs) * windowMs`,
`key = keyPrefix + ":" + windowStart`.  Returns `(key, windowStart)`. -/
def getWindowKey (windowMs : Nat) (keyPref : String) (now : Nat) :
    String × Nat :=
  let windowStart := now / windowMs * windowMs
  (keyPref ++ ":" ++ toString windowStart, windowStart)

/-- `checkRateLimit` from rate-limit.ts, with the store interaction made
explicit: `readResult` is the outcome of `await redis.get(key)` —
`Except.error` when the read throws, otherwise the stored counter
(`none` for a missing key, read as 0 by `currentCount ? parseInt(...) : 0`).
The `catch` branch fails open exactly as in the source. -/
def checkRateLimit (cfg : RateLimitConfig) (now : Nat)
    (readResult : Except String (Option Nat)) : RateLimitResult :=
  let wk := getWindowKey cfg.windowMs cfg.keyPref now
  match readResult with
  | Except.ok currentCount =>
    let count := currentCount.getD 0
    { allowed := decide (count < cfg.maxRequests)
      remaining := max 0 ((cfg.maxRequests : Int) - (count : Int))
      resetTime := wk.2 + cfg.windowMs
      totalHits := count }
  | Except.error _ =>
    { allowed := true
      remaining := (cfg.maxRequests : Int) - 1
      resetTime := wk.2 + cfg.windowMs
      totalHits := 0 }

/-- `recordRateLimit` from rate-limit.ts as a store transformer: the
pipeline's `incr key` (Redis INCR treats a missing key as 0).  The
accompanying `expire` only sets a TTL and does not change any counter, so
it leaves this time-free store model unchanged. -/
def recordRateLimit (windowMs : Nat) (keyPref : String) (now : Nat)
    (store : String → Option Nat) : String → Option Nat :=
  let key := (getWindowKey windowMs keyPref now).1
  fun k => if k = key then some ((store key).getD 0 + 1) else store k

/-- `n` successive `recordRateLimit` calls at the same instant. -/
def recordHits : Nat → Nat → String → Nat → (String → Option Nat) →
    (String → Option Nat)
  | 0, _, _, _, store => store
  | n + 1, w, p, t, store => recordRateLimit w p t (recordHits n w p t store)

/-- The empty counter store: every key missing. -/
def emptyStore : String → Option Nat := fun _ => none

/-- The Redis commands a rate-limiter function issues, in order. -/
inductive RedisOp where
  | get (key : String)
  | incr (key : String)
  | expire (key : String) (seconds : Nat)
deriving Repr, DecidableEq

/-- The only store command `checkRateLimit` issues is
`redis.get(key)` (rate-limit.ts line 82). -/
def checkRateLimitOps (cfg : RateLimitConfig) (now : Nat) : List RedisOp :=
  [RedisOp.get (getWindowKey cfg.windowMs cfg.keyPref now).1]

/-- The store commands `recordRateLimit` issues: the pipelined
`incr(key)` then `expire(key, ceil(windowMs / 1000))`. -/
def recordRateLimitOps (windowMs : Nat) (keyPref : String) (now : Nat) :
    List RedisOp :=
  let key := (getWindowKey windowMs keyPref now).1
  [RedisOp.incr key, RedisOp.expire key ((windowMs + 999) / 1000)]

/-- Effect of one Redis command on the counter store.  `get` reads only;
`expire` sets a TTL, which in this time-free model changes no counter. -/
def applyRedisOp (store : String → Option Nat) : RedisOp →
    (String → Option Nat)
  | RedisOp.get _ => store
  | RedisOp.incr key =>
    fun k => if k = key then some ((store key).getD 0 + 1) else store k
  | RedisOp.expire _ _ => store

/-- Effect of a command sequence on the counter store. -/
def applyRedisOps (store : String → Option Nat) (ops : List RedisOp) :
    String → Option Nat :=
  ops.foldl applyRedisOp store

/-- One invocation of the `retry` closure of rate-limit.ts (lines 89–111).
`retryCount` is the mutable counter of the closure being invoked
(initialised to 0 when its `checkRateLimit` call constructed the result),
`allowed` the `allowed` flag of that result, and `rechecks` the `allowed`
flags that the successive inner `checkRateLimit` re-checks will return.
As in the source, a denied re-check below the cap increments the current
closure's counter and then tail-calls `retryResult.retry()` — the retry
closure of the freshly constructed result, whose own counter starts at 0;
the incremented counter of the abandoned closure is never consulted again.
`some b` means the call resolves `b`; `none` means it consumed every
modelled re-check answer and is still recursing (about to re-check
again). -/
def retryRun (maxRetries : Nat) : Nat → Bool → List Bool → Option Bool
  | _, true, _ => some true
  | _, false, [] => none
  | retryCount, false, a :: rest =>
    if a then some true
    else if maxRetries ≤ retryCount then some false
    else retryRun maxRetries 0 false rest

/-! ## Scrape tool: `scrapePages.execute` in `src/deep-search.ts` -/

/-- The `sourceType` tag of a successful crawl. -/
inductive SourceType where
  | html
  | pdf
deriving Repr, DecidableEq

/-- Per-URL `CrawlOutcome`: `{success: true, sourceType, data}` or
`{success: false, error}`. -/
inductive CrawlOutcome where
  | ok (sourceType : SourceType) (data : String)
  | err (errorMsg : String)
deriving Repr, DecidableEq

/-- The `success` field of an outcome. -/
def CrawlOutcome.successField : CrawlOutcome → Bool
  | CrawlOutcome.ok _ _ => true
  | CrawlOutcome.err _ => false

/-- The `data` field of an outcome (`undefined`, i.e. `none`, on a
failure). -/
def CrawlOutcome.dataField : CrawlOutcome → Option String
  | CrawlOutcome.ok _ d => some d
  | CrawlOutcome.err _ => none

/-- The `sourceType` field of an outcome (`undefined`, i.e. `none`, on a
failure). -/
def CrawlOutcome.sourceTypeField : CrawlOutcome → Option SourceType
  | CrawlOutcome.ok t _ => some t
  | CrawlOutcome.err _ => none

/-- One `{url, result}` entry of a crawl batch. -/
structure UrlCrawl where
  url : String
  result : CrawlOutcome
deriving Repr, DecidableEq

/-- `CrawlBatchResult` as produced by `crawlMultipleUrls`. -/
structure CrawlBatchResult where
  success : Bool
  results : List UrlCrawl
deriving Repr, DecidableEq

/-- One entry of the flattened `sources` projection. -/
structure SourceEntry where
  url : String
  content : Option String
  sourceType : Option SourceType
deriving Repr, DecidableEq

/-- The value `scrapePages.execute` returns to the model: the spread crawl
result plus the `sources` projection, and on the catch path a top-level
`error` message. -/
structure ScrapeToolResult where
  success : Bool
  results : List UrlCrawl
  errorMsg : Option String
  sources : List SourceEntry
deriving Repr, DecidableEq

/-- `scrapePages.execute` from deep-search.ts, with the awaited
`crawlMultipleUrls(urls)` made explicit: `Except.ok` is a returned batch,
`Except.error msg` is a throw from the aggregation step whose caught
error has message `msg`.  On `Except.ok` the source branches on
`crawlResult.success === true` (direct `result.data` / `result.sourceType`
access) versus the guarded per-entry projection; on a throw it returns the
structured all-failed batch. -/
def scrapePagesExecute (urls : List String)
    (crawl : Except String CrawlBatchResult) : ScrapeToolResult :=
  match crawl with
  | Except.ok crawlResult =>
    let sources :=
      if crawlResult.success then
        crawlResult.results.map (fun e =>
          { url := e.url
            content := e.result.dataField
            sourceType := e.result.sourceTypeField })
      else
        crawlResult.results.map (fun e =>
          { url := e.url
            content := if e.result.successField then e.result.dataField
              else none
            sourceType := if e.result.successField then
              e.result.sourceTypeField else none })
    { success := crawlResult.success
      results := crawlResult.results
      errorMsg := none
      sources := sources }
  | Except.error msg =>
    { success := false
      results := urls.map (fun u => { url := u, result := CrawlOutcome.err msg })
      errorMsg := some msg
      sources := urls.map (fun u =>
        { url := u, content := none, sourceType := none }) }

/-! ## Agent loop: `streamFromDeepSearch` in `src/deep-search.ts` -/

/-- Modelled from the spec: what the reasoning engine emits at one step —
either a final text answer (terminal) or a tool-call request
(non-terminal).  The engine itself (`streamText`'s model driver in the
`ai` SDK) is not part of this repository's sources. -/
inductive EngineOutput where
  | finalText (text : String)
  | toolRequest
deriving Repr, DecidableEq

/-- Modelled from the spec: the AgentLoop state — `reasoning n` after `n`
completed step transitions, or terminal `done n`. -/
inductive LoopState where
  | reasoning (stepsDone : Nat)
  | done (stepsDone : Nat)
deriving Repr, DecidableEq

/-- Modelled from the spec: one step transition of the step-bounded loop
configured by `streamText({stopWhen: stepCountIs(budget), ...})` — the
loop semantics live in the external `ai` SDK, not under the repository
sources.  Per spec §4.4: at a `Reasoning` state the engine either emits
final text (→ `Done`) or requests a tool call, after which the loop
continues unless the completed-step count has reached the budget, which
forces `Done`. -/
def loopStep (budget : Nat) (engine : Nat → EngineOutput) :
    LoopState → LoopState
  | LoopState.reasoning n =>
    match engine n with
    | EngineOutput.finalText _ => LoopState.done (n + 1)
    | EngineOutput.toolRequest =>
      if budget ≤ n + 1 then LoopState.done (n + 1)
      else LoopState.reasoning (n + 1)
  | LoopState.done n => LoopState.done n

/-- The step budget `streamFromDeepSearch` configures:
`stopWhen: stepCountIs(15)` in deep-search.ts. -/
def deepSearchStepBudget : Nat := 15

/-! ## Chat endpoint: `POST` in `src/app/api/chat/route.ts` -/

/-- The fields of the looked-up user that the endpoint consults. -/
structure AppUser where
  id : String
  isAdmin : Bool
deriving Repr, DecidableEq

/-- The three externally visible outcomes of the endpoint. -/
inductive ChatResponse where
  | unauthorized
  | tooManyRequests
  | streamed
deriving Repr, DecidableEq

/-- The two side effects the admission contract constrains: whether
`insertRequestLog` ran and whether the agent loop (`streamText`) was
invoked. -/
structure ChatEffects where
  insertedRequestLog : Bool
  invokedAgentLoop : Bool
deriving Repr, DecidableEq

/-- The `POST` handler of route.ts, over explicit collaborator results:
`sessionUserId` is `session?.user?.id`, `lookupUser` is `getUserById`,
`dailyLimit` is `getRequestLimitPerDay()`, and `dailyCount` is
`getDailyRequestCount` for each user id.  Mirrors the source's control
flow: 401 on missing session or unknown user; for non-admins with a
positive limit, 429 when the daily count has reached the limit (before
any `insertRequestLog` and before `streamText`); otherwise the request
log is inserted and the streamed answer produced. -/
def chatPOST (sessionUserId : Option String)
    (lookupUser : String → Option AppUser)
    (dailyLimit : Nat) (dailyCount : String → Nat) :
    ChatResponse × ChatEffects :=
  match sessionUserId with
  | none => (ChatResponse.unauthorized, ⟨false, false⟩)
  | some uid =>
    match lookupUser uid with
    | none => (ChatResponse.unauthorized, ⟨false, false⟩)
    | some user =>
      if user.isAdmin = false then
        if 0 < dailyLimit then
          if dailyLimit ≤ dailyCount user.id then
            (ChatResponse.tooManyRequests, ⟨false, false⟩)
          else (ChatResponse.streamed, ⟨true, true⟩)
        else (ChatResponse.streamed, ⟨true, true⟩)
      else (ChatResponse.streamed, ⟨true, true⟩)

/-- Example crawl batch used by witnesses: one HTML success and one
failure, with the batch flag `false` as `crawlMultipleUrls` sets it when
any outcome failed. -/
def mixedBatch : CrawlBatchResult :=
  { success := false
    results :=
      [ { url := "https://a.example", result := CrawlOutcome.ok SourceType.html "# A" }
      , { url := "https://b.example", result := CrawlOutcome.err "robots.txt disallow" } ] }

/-- Example user directory used by witnesses: one regular user and one
admin. -/
def lookupEx : String → Option AppUser :=
  fun uid =>
    if uid = "u1" then some { id := "u1", isAdmin := false }
    else if uid = "a1" then some { id := "a1", isAdmin := true }
    else none

/-! ## Theorems -/

/-- C6: for every `now` and `windowMs > 0`,
`windowStart = floor(now/windowMs)*windowMs` is at most `now` and
flooring it again is the identity; the key is
`keyPrefix ++ ":" ++ windowStart`; and any two `getWindowKey` calls with
the same prefix and window size whose times lie in the same
`[windowStart, windowStart + windowMs)` interval produce identical
keys. -/
theorem getWindowKey_same_window_key (windowMs : Nat) (keyPref : String)
    (now : Nat) (hw : 0 < windowMs) :
    (getWindowKey windowMs keyPref now).2 ≤ now ∧
    (getWindowKey windowMs keyPref
        ((getWindowKey windowMs keyPref now).2)).2
      = (getWindowKey windowMs keyPref now).2 ∧
    (getWindowKey windowMs keyPref now).1
      = keyPref ++ ":" ++ toString ((getWindowKey windowMs keyPref now).2) ∧
    ∀ t1 t2,
      (getWindowKey windowMs keyPref now).2 ≤ t1 →
      t1 < (getWindowKey windowMs keyPref now).2 + windowMs →
      (getWindowKey windowMs keyPref now).2 ≤ t2 →
      t2 < (getWindowKey windowMs keyPref now).2 + windowMs →
      getWindowKey windowMs keyPref t1 = getWindowKey windowMs keyPref t2 := by
  refine ⟨Nat.div_mul_le_self now windowMs, ?_, rfl, ?_⟩
  · show now / windowMs * windowMs / windowMs * windowMs
      = now / windowMs * windowMs
    rw [Nat.mul_div_cancel _ hw]
  · intro t1 t2 h1l h1u h2l h2u
    have key : ∀ t, now / windowMs * windowMs ≤ t →
        t < now / windowMs * windowMs + windowMs →
        t / windowMs = now / windowMs := by
      intro t hl hu
      exact Nat.div_eq_of_lt_le hl (by
        have : (now / windowMs + 1) * windowMs
            = now / windowMs * windowMs + windowMs := by ring
        omega)
    show (_, _) = (_, _)
    rw [show t1 / windowMs = now / windowMs from key t1 h1l h1u,
      show t2 / windowMs = now / windowMs from key t2 h2l h2u]

/-- C6 witness: concrete instance at `windowMs = 60000`,
`now = 123456`. -/
theorem getWindowKey_same_window_key_witness :
    0 < 60000 ∧ (getWindowKey 60000 "rate_limit" 123456).2 ≤ 123456 :=
  ⟨by decide,
    (getWindowKey_same_window_key 60000 "rate_limit" 123456 (by decide)).1⟩

/-- C3: when the store read throws, `checkRateLimit` does not propagate
the failure but fails open, returning `allowed = true`,
`remaining = maxRequests - 1`, `resetTime = windowStart + windowMs` and
`totalHits = 0`. -/
theorem checkRateLimit_fails_open (cfg : RateLimitConfig) (now : Nat)
    (msg : String) :
    checkRateLimit cfg now (Except.error msg) =
      { allowed := true
        remaining := (cfg.maxRequests : Int) - 1
        resetTime := (getWindowKey cfg.windowMs cfg.keyPref now).2
          + cfg.windowMs
        totalHits := 0 } := rfl

/-- C4: on a successful store read, `checkRateLimit` reports
`totalHits` equal to the stored counter (0 when the key is missing),
`allowed` exactly when `totalHits < maxRequests`,
`remaining = max 0 (maxRequests - totalHits)` and
`resetTime = windowStart + windowMs`; in the spec scenario
(`maxRequests = 5`, `windowMs = 60000`), after 5 recorded hits in one
window the check is denied with `remaining = 0`, and a check after the
window rolls over (clock at 60001) sees `totalHits = 0` and is
allowed. -/
theorem checkRateLimit_ok_fields_and_scenario :
    (∀ (cfg : RateLimitConfig) (now : Nat) (stored : Option Nat),
      (checkRateLimit cfg now (Except.ok stored)).totalHits
        = stored.getD 0 ∧
      ((checkRateLimit cfg now (Except.ok stored)).allowed = true ↔
        (checkRateLimit cfg now (Except.ok stored)).totalHits
          < cfg.maxRequests) ∧
      (checkRateLimit cfg now (Except.ok stored)).remaining
        = max 0 ((cfg.maxRequests : Int)
            - ((checkRateLimit cfg now (Except.ok stored)).totalHits : Int)) ∧
      (checkRateLimit cfg now (Except.ok stored)).resetTime
        = (getWindowKey cfg.windowMs cfg.keyPref now).2 + cfg.windowMs) ∧
    (checkRateLimit { maxRequests := 5, windowMs := 60000 } 0
        (Except.ok ((recordHits 5 60000 "rate_limit" 0 emptyStore)
          (getWindowKey 60000 "rate_limit" 0).1))).allowed = false ∧
    (checkRateLimit { maxRequests := 5, windowMs := 60000 } 0
        (Except.ok ((recordHits 5 60000 "rate_limit" 0 emptyStore)
          (getWindowKey 60000 "rate_limit" 0).1))).remaining = 0 ∧
    (checkRateLimit { maxRequests := 5, windowMs := 60000 } 60001
        (Except.ok ((recordHits 5 60000 "rate_limit" 0 emptyStore)
          (getWindowKey 60000 "rate_limit" 60001).1))).totalHits = 0 ∧
    (checkRateLimit { maxRequests := 5, windowMs := 60000 } 60001
        (Except.ok ((recordHits 5 60000 "rate_limit" 0 emptyStore)
          (getWindowKey 60000 "rate_limit" 60001).1))).allowed = true := by
  refine ⟨?_, by decide, by decide, by decide, by decide⟩
  intro cfg now stored
  refine ⟨rfl, ?_, rfl, rfl⟩
  simp [checkRateLimit]

/-- C9: `checkRateLimit` issues only a `get` of the window key, so its
command trace leaves the counter store unchanged; any number of checks
leaves it unchanged, and hence the stored value a later check reads — and
with it that check's result — is unaffected; `recordRateLimit`'s trace is
exactly the increment of its window key. -/
theorem checkRateLimit_writes_nothing :
    (∀ (cfg : RateLimitConfig) (now : Nat) (store : String → Option Nat),
      applyRedisOps store (checkRateLimitOps cfg now) = store) ∧
    (∀ (checks : List (RateLimitConfig × Nat)) (store : String → Option Nat),
      checks.foldl
        (fun s c => applyRedisOps s (checkRateLimitOps c.1 c.2)) store
        = store) ∧
    (∀ (w : Nat) (p : String) (now : Nat) (store : String → Option Nat),
      applyRedisOps store (recordRateLimitOps w p now)
        = recordRateLimit w p now store) ∧
    (∀ (checks : List (RateLimitConfig × Nat)) (cfg : RateLimitConfig)
      (now : Nat) (store : String → Option Nat),
      checkRateLimit cfg now (Except.ok
        (checks.foldl
          (fun s c => applyRedisOps s (checkRateLimitOps c.1 c.2)) store
          (getWindowKey cfg.windowMs cfg.keyPref now).1))
        = checkRateLimit cfg now (Except.ok
            (store (getWindowKey cfg.windowMs cfg.keyPref now).1))) := by
  have h1 : ∀ (cfg : RateLimitConfig) (now : Nat)
      (store : String → Option Nat),
      applyRedisOps store (checkRateLimitOps cfg now) = store :=
    fun _ _ _ => rfl
  have h2 : ∀ (checks : List (RateLimitConfig × Nat))
      (store : String → Option Nat),
      checks.foldl
        (fun s c => applyRedisOps s (checkRateLimitOps c.1 c.2)) store
        = store := by
    intro checks
    induction checks with
    | nil => intro store; rfl
    | cons c cs ih =>
      intro store
      calc (c :: cs).foldl
            (fun s c => applyRedisOps s (checkRateLimitOps c.1 c.2)) store
          = cs.foldl
            (fun s c => applyRedisOps s (checkRateLimitOps c.1 c.2))
            (applyRedisOps store (checkRateLimitOps c.1 c.2)) := rfl
        _ = store := by rw [h1]; exact ih store
  exact ⟨h1, h2, fun _ _ _ _ => rfl, fun checks cfg now store => by
    rw [h2]⟩

/-- C1: the claim that `retry()` performs at most `maxRetries` re-checks
before resolving `false` fails on the code.  With the default
`maxRetries = 3`, a denied result (here: stored count already at
`maxRequests = 5`) whose re-checks are all denied never resolves: each
recursive step hands control to the freshly constructed result's `retry`
closure, whose own `retryCount` restarts at 0, so the comparison
`retryCount >= maxRetries` is `0 >= 3` at every depth and the
sleep-and-recheck recursion continues past any number `n` of re-checks
(`none` = still unresolved).  Only `maxRetries = 0` makes the cap fire,
after one re-check. -/
theorem retry_rechecks_exceed_cap :
    (checkRateLimit { maxRequests := 5, windowMs := 60000 } 0
      (Except.ok (some 5))).allowed = false ∧
    (∀ n, retryRun 3 0 false (List.replicate n false) = none) ∧
    retryRun 0 0 false [false] = some false := by
  refine ⟨by decide, ?_, by decide⟩
  intro n
  induction n with
  | zero => rfl
  | succ n ih => simpa [List.replicate, retryRun] using ih

/-- C5: when the aggregation step inside `scrapePages` throws, the tool
still returns a well-formed batch: `success = false`, exactly one result
entry per requested URL in submitted order, each a failure carrying the
caught error's message, a top-level error message, and a `sources` array
mapping every URL to null content and null source type. -/
theorem scrapePages_aggregation_error_shape (urls : List String)
    (msg : String) (hne : urls ≠ []) :
    (scrapePagesExecute urls (Except.error msg)).success = false ∧
    (scrapePagesExecute urls (Except.error msg)).results
      = urls.map (fun u => { url := u, result := CrawlOutcome.err msg }) ∧
    (scrapePagesExecute urls (Except.error msg)).results.length
      = urls.length ∧
    (scrapePagesExecute urls (Except.error msg)).errorMsg = some msg ∧
    (scrapePagesExecute urls (Except.error msg)).sources
      = urls.map (fun u =>
          { url := u, content := none, sourceType := none }) := by
  refine ⟨rfl, rfl, ?_, rfl, rfl⟩
  simp [scrapePagesExecute]

/-- C5 witness: concrete one-URL batch whose aggregation throws. -/
theorem scrapePages_aggregation_error_shape_witness :
    (["https://a.example"] : List String) ≠ [] ∧
    (scrapePagesExecute ["https://a.example"]
      (Except.error "boom")).success = false :=
  ⟨by decide,
    (scrapePages_aggregation_error_shape ["https://a.example"] "boom"
      (by decide)).1⟩

/-- C2: the step-bounded loop with budget `k ≥ 1` driven by an engine
that requests a tool call at every step performs exactly `k` step
transitions: before the `k`-th iteration it is still reasoning, at the
`k`-th it is forced to `Done` with `k` steps done, and it stays there —
it never performs a `k + 1`-st step. -/
theorem agentLoop_forced_done_at_budget (k : Nat)
    (engine : Nat → EngineOutput) (hk : 1 ≤ k)
    (htool : ∀ n, engine n = EngineOutput.toolRequest) :
    (∀ j, j < k → (loopStep k engine)^[j] (LoopState.reasoning 0)
      = LoopState.reasoning j) ∧
    (loopStep k engine)^[k] (LoopState.reasoning 0) = LoopState.done k ∧
    (∀ m, (loopStep k engine)^[k + m] (LoopState.reasoning 0)
      = LoopState.done k) := by
  have hstep : ∀ j, loopStep k engine (LoopState.reasoning j)
      = if k ≤ j + 1 then LoopState.done (j + 1)
        else LoopState.reasoning (j + 1) := by
    intro j
    simp [loopStep, htool j]
  have h1 : ∀ j, j < k → (loopStep k engine)^[j] (LoopState.reasoning 0)
      = LoopState.reasoning j := by
    intro j
    induction j with
    | zero => intro _; rfl
    | succ j ih =>
      intro hj
      rw [Function.iterate_succ_apply', ih (by omega), hstep,
        if_neg (by omega)]
  obtain ⟨k', rfl⟩ : ∃ k', k = k' + 1 := ⟨k - 1, by omega⟩
  have h2 : (loopStep (k' + 1) engine)^[k' + 1] (LoopState.reasoning 0)
      = LoopState.done (k' + 1) := by
    rw [Function.iterate_succ_apply', h1 k' (by omega), hstep,
      if_pos (by omega)]
  refine ⟨h1, h2, ?_⟩
  intro m
  induction m with
  | zero => exact h2
  | succ m ih =>
    rw [show k' + 1 + (m + 1) = (k' + 1 + m) + 1 by omega,
      Function.iterate_succ_apply', ih]
    rfl

/-- C2 witness: the budget `streamFromDeepSearch` configures
(`stepCountIs(15)`), with the constantly tool-requesting engine. -/
theorem agentLoop_forced_done_at_budget_witness :
    1 ≤ deepSearchStepBudget ∧
    (loopStep deepSearchStepBudget
        (fun _ => EngineOutput.toolRequest))^[deepSearchStepBudget]
      (LoopState.reasoning 0) = LoopState.done deepSearchStepBudget :=
  ⟨by decide,
    (agentLoop_forced_done_at_budget deepSearchStepBudget
      (fun _ => EngineOutput.toolRequest) (by decide)
      (fun _ => rfl)).2.1⟩

/-- C7: for a crawl batch returned without throwing (with the
`crawlMultipleUrls` invariant, modelled from the spec, that the batch
flag is `true` only when every per-URL outcome succeeded), the attached
`sources` projection has one entry per result, in order: the entry keeps
the URL, its `content` and `sourceType` are null exactly when that URL's
outcome failed, and equal the outcome's data and source type when it
succeeded; the projection is attached whatever the batch flag is. -/
theorem scrapePages_sources_projection (urls : List String)
    (b : CrawlBatchResult)
    (hinv : b.success = true →
      ∀ e ∈ b.results, e.result.successField = true) :
    (scrapePagesExecute urls (Except.ok b)).sources.length
      = b.results.length ∧
    List.Forall₂
      (fun (e : UrlCrawl) (se : SourceEntry) =>
        se.url = e.url ∧
        (se.content = none ↔ e.result.successField = false) ∧
        (se.sourceType = none ↔ e.result.successField = false) ∧
        ∀ t d, e.result = CrawlOutcome.ok t d →
          se.content = some d ∧ se.sourceType = some t)
      b.results (scrapePagesExecute urls (Except.ok b)).sources := by
  have hs : (scrapePagesExecute urls (Except.ok b)).sources
      = if b.success then
          b.results.map (fun e =>
            ({ url := e.url
               content := e.result.dataField
               sourceType := e.result.sourceTypeField } : SourceEntry))
        else
          b.results.map (fun e =>
            ({ url := e.url
               content := if e.result.successField then e.result.dataField
                 else none
               sourceType := if e.result.successField then
                 e.result.sourceTypeField else none } : SourceEntry)) := rfl
  by_cases hb : b.success = true
  · rw [hs, if_pos hb]
    refine ⟨by simp, ?_⟩
    refine List.forall₂_map_right_iff.mpr (List.forall₂_same.mpr ?_)
    intro e he
    have hsucc := hinv hb e he
    cases hr : e.result with
    | ok t d =>
      refine ⟨rfl, ?_, ?_, ?_⟩ <;>
        simp [hr, CrawlOutcome.dataField, CrawlOutcome.sourceTypeField,
          CrawlOutcome.successField]
    | err m =>
      rw [hr] at hsucc
      simp [CrawlOutcome.successField] at hsucc
  · rw [hs, if_neg hb]
    refine ⟨by simp, ?_⟩
    refine List.forall₂_map_right_iff.mpr (List.forall₂_same.mpr ?_)
    intro e he
    cases hr : e.result with
    | ok t d =>
      refine ⟨rfl, ?_, ?_, ?_⟩ <;>
        simp [hr, CrawlOutcome.dataField, CrawlOutcome.sourceTypeField,
          CrawlOutcome.successField]
    | err m =>
      refine ⟨rfl, ?_, ?_, ?_⟩ <;>
        simp [hr, CrawlOutcome.dataField, CrawlOutcome.sourceTypeField,
          CrawlOutcome.successField]

/-- C7 witness: the mixed success/failure batch with the batch flag
`false`. -/
theorem scrapePages_sources_projection_witness :
    (mixedBatch.success = true →
      ∀ e ∈ mixedBatch.results, e.result.successField = true) ∧
    (scrapePagesExecute [] (Except.ok mixedBatch)).sources.length
      = mixedBatch.results.length :=
  ⟨by decide,
    (scrapePages_sources_projection [] mixedBatch (by decide)).1⟩

/-- C8: the endpoint returns 401 when there is no session user or the
session user is not found; 429 when the admission check denies the
request (non-admin, positive daily limit, daily count at or above it),
in which case no request log is inserted and the agent loop is not
invoked; otherwise the request proceeds to the streamed answer. -/
theorem chatPOST_status_contract (lookupUser : String → Option AppUser)
    (dailyLimit : Nat) (dailyCount : String → Nat) :
    chatPOST none lookupUser dailyLimit dailyCount
      = (ChatResponse.unauthorized, ⟨false, false⟩) ∧
    (∀ uid, lookupUser uid = none →
      chatPOST (some uid) lookupUser dailyLimit dailyCount
        = (ChatResponse.unauthorized, ⟨false, false⟩)) ∧
    (∀ uid user, lookupUser uid = some user → user.isAdmin = false →
      0 < dailyLimit → dailyLimit ≤ dailyCount user.id →
      chatPOST (some uid) lookupUser dailyLimit dailyCount
        = (ChatResponse.tooManyRequests, ⟨false, false⟩)) ∧
    (∀ uid user, lookupUser uid = some user →
      ¬(user.isAdmin = false ∧ 0 < dailyLimit ∧
        dailyLimit ≤ dailyCount user.id) →
      chatPOST (some uid) lookupUser dailyLimit dailyCount
        = (ChatResponse.streamed, ⟨true, true⟩)) := by
  refine ⟨rfl, ?_, ?_, ?_⟩
  · intro uid h
    simp [chatPOST, h]
  · intro uid user h ha hl hc
    simp [chatPOST, h, ha, hl, hc]
  · intro uid user h hcase
    simp only [chatPOST, h]
    split_ifs with h1 h2 h3
    · exact absurd ⟨h1, h2, h3⟩ hcase
    all_goals rfl

/-- C8 witness: a non-admin over the limit receives 429 with no request
log inserted and no agent loop invoked. -/
theorem chatPOST_status_contract_witness :
    lookupEx "u1" = some { id := "u1", isAdmin := false } ∧
    chatPOST (some "u1") lookupEx 5 (fun _ => 7)
      = (ChatResponse.tooManyRequests, ⟨false, false⟩) :=
  ⟨by decide,
    (chatPOST_status_contract lookupEx 5 (fun _ => 7)).2.2.1 "u1"
      { id := "u1", isAdmin := false } (by decide) rfl (by decide)
      (by decide)⟩

/-- C10: the 429 branch is unreachable for admins and when the daily
limit is 0: an admin request, or any request under a zero limit, is
admitted regardless of the daily request count, with the request log
still inserted and the agent loop invoked. -/
theorem chatPOST_admin_or_zero_limit_bypass
    (lookupUser : String → Option AppUser) (dailyLimit : Nat)
    (dailyCount : String → Nat) (uid : String) (user : AppUser)
    (h : lookupUser uid = some user) :
    (user.isAdmin = true →
      chatPOST (some uid) lookupUser dailyLimit dailyCount
        = (ChatResponse.streamed, ⟨true, true⟩)) ∧
    (dailyLimit = 0 →
      chatPOST (some uid) lookupUser dailyLimit dailyCount
        = (ChatResponse.streamed, ⟨true, true⟩)) := by
  constructor
  · intro ha
    simp [chatPOST, h, ha]
  · intro hl
    subst hl
    simp only [chatPOST, h]
    split_ifs with h1 h2 h3
    · omega
    all_goals rfl

/-- C10 witness: an admin with an enormous daily count is still
admitted. -/
theorem chatPOST_admin_or_zero_limit_bypass_witness :
    lookupEx "a1" = some { id := "a1", isAdmin := true } ∧
    chatPOST (some "a1") lookupEx 5 (fun _ => 1000000)
      = (ChatResponse.streamed, ⟨true, true⟩) :=
  ⟨by decide,
    (chatPOST_admin_or_zero_limit_bypass lookupEx 5 (fun _ => 1000000)
      "a1" { id := "a1", isAdmin := true } (by decide)).1 rfl⟩

end LlmAgent
